import Mathlib

/-!
Shallow embedding of the coordination core of the "am I cooked chat" wiki-race
game: the link-selection engine (`decideBestLink` in
`src/app/api/stagehand/main.ts`) and the race-state reconciler (the state
updaters inside `src/app/page.tsx`: `startGame`, `handlePlayerNavigation`,
`fetchSessionData`, `endGame`, `generateEndGameCommentary`).

JavaScript strings are modelled by Lean `String`; JS `Date` timestamps by
`Int` milliseconds; JS floating-point second counts (`ms / 1000`) by `ℚ`.
-/

namespace WikiRace

/-- JS `s.includes(t)`: `t` occurs as a contiguous substring of `s`. -/
def jsIncludes (s t : String) : Bool :=
  decide (t.data <:+: s.data)

/-- JS `s === ''` / falsiness of a string. -/
def strIsEmpty (s : String) : Bool :=
  s == ""

/-- JS `s.toLowerCase()` (ASCII case mapping, as every string the claims
exercise is ASCII). -/
def strToLower (s : String) : String :=
  String.mk (s.data.map Char.toLower)

/-- JS `s.replace(/a/g, b)` for single-character patterns (used for the
space/underscore normalizations). -/
def replaceAllChar (s : String) (a b : Char) : String :=
  String.mk (s.data.map (fun c => if c = a then b else c))

/-- JS `s.trim()`: strip leading and trailing whitespace. -/
def jsTrim (s : String) : String :=
  String.mk
    (((s.data.dropWhile Char.isWhitespace).reverse.dropWhile Char.isWhitespace).reverse)

/-- Split around the first occurrence of `pat`: `some (pre, post)` with
`s = pre ++ pat ++ post` and `pat` not occurring earlier, or `none` when
`pat` does not occur. (All uses have nonempty `pat`.) -/
def breakOnFirst (pat : List Char) : List Char → Option (List Char × List Char)
  | [] => if pat.isEmpty then some ([], []) else none
  | c :: rest =>
    if pat.isPrefixOf (c :: rest) then some ([], (c :: rest).drop pat.length)
    else
      match breakOnFirst pat rest with
      | some (pre, post) => some (c :: pre, post)
      | none => none

/-- JS `s.replace(pat, repl)` with a plain-string pattern: replaces only
the first occurrence (contrast with the `/g` flag). -/
def jsReplaceFirst (s pat repl : String) : String :=
  match breakOnFirst pat.data s.data with
  | none => s
  | some (pre, post) => String.mk pre ++ repl ++ String.mk post

/-- Everything after the first occurrence of `pat` in `s`, or `none` if
`pat` does not occur. -/
def afterFirst (s pat : String) : Option String :=
  (breakOnFirst pat.data s.data).map (fun pr => String.mk pr.2)

/-- Whitespace tokenizer: `acc` holds the reversed current token. -/
def tokenizeWsAux : List Char → List Char → List (List Char)
  | acc, [] => if acc.isEmpty then [] else [acc.reverse]
  | acc, c :: rest =>
    if c.isWhitespace then
      if acc.isEmpty then tokenizeWsAux [] rest
      else acc.reverse :: tokenizeWsAux [] rest
    else tokenizeWsAux (c :: acc) rest

/-- JS `s.split(/\s+/)` on an already-trimmed string: the maximal nonempty
runs of non-whitespace characters (the source always trims before
splitting, so no empty leading token can arise). -/
def splitWs (s : String) : List String :=
  (tokenizeWsAux [] s.data).map String.mk

/-- A link candidate scraped from the current page (`{ text, href }` in
`getWikipediaLinks`). -/
structure Link where
  text : String
  href : String
deriving DecidableEq, Repr

/-- Outcome of the OpenAI chat-completion call inside `decideBestLink`:
either the promise rejects (`error`), or it resolves with an optional
message content string. -/
inductive ReasonerOutcome where
  | ok (content : Option String)
  | error
deriving DecidableEq, Repr

/-- Tier-2 fuzzy match from `decideBestLink`: containment in either
direction or case-insensitive equality. -/
def tier2Match (l : Link) (t : String) : Bool :=
  jsIncludes l.text t || jsIncludes t l.text || (strToLower l.text == strToLower t)

/-- Tier-3 score numerator: number of answer tokens found as a substring of
the candidate's lowercase text (`bestLinkWords.filter(word =>
linkText.includes(word)).length`). -/
def matchCount (toks : List String) (l : Link) : Nat :=
  (toks.filter (fun w => jsIncludes (strToLower l.text) w)).length

/-- First element attaining the maximal key: models sorting by score
descending with JS's stable `Array.prototype.sort` and taking index 0. -/
def argmaxFirst (key : Link → Nat) : List Link → Option Link
  | [] => none
  | l :: ls => some (ls.foldl (fun best x => if key x > key best then x else best) l)

/-- JS `link.text.charAt(0).toUpperCase() === link.text.charAt(0)`; for the
empty string `charAt(0)` is `""` and the comparison is true. -/
def capitalizedInitial (s : String) : Bool :=
  match s.data with
  | [] => true
  | c :: _ => c.toUpper == c

/-- The matching cascade of `decideBestLink` (lines 250-293) applied to an
already-trimmed reasoner answer `bestLinkText`: empty answer → `links[0]`;
tier 1 exact text match; tier 2 containment / case-insensitive match;
tier 3 token-overlap with strict `> 0.5` threshold; otherwise `links[0]`. -/
def matchAnswer (links : List Link) (bestLinkText : String) : Option Link :=
  if strIsEmpty bestLinkText then links.head?
  else
    match links.find? (fun l => l.text == bestLinkText) with
    | some l => some l
    | none =>
      match links.find? (fun l => tier2Match l bestLinkText) with
      | some l => some l
      | none =>
        let bestLinkWords := splitWs (strToLower bestLinkText)
        match argmaxFirst (matchCount bestLinkWords) links with
        | some l =>
          if 2 * matchCount bestLinkWords l > bestLinkWords.length then some l
          else links.head?
        | none => links.head?

/-- The catch-branch fallback of `decideBestLink` (lines 294-305): prefer
links with text longer than 10 characters or a capitalized initial, and
pick one at position `randomPick mod length` (modelling
`Math.floor(Math.random() * length)`). -/
def errorFallback (links : List Link) (randomPick : Nat) : Option Link :=
  let potentialGoodLinks := links.filter (fun l =>
    decide (l.text.length > 10) || capitalizedInitial l.text)
  let fallbackLinks := if potentialGoodLinks.isEmpty then links else potentialGoodLinks
  fallbackLinks[randomPick % fallbackLinks.length]?

/-- `decideBestLink` from `src/app/api/stagehand/main.ts`, with the two
external effects made explicit parameters: `reasoner` is the outcome of the
OpenAI call (its optional message content, or a thrown error), and
`randomPick` seeds the random choice in the error fallback. `targetPage`
and `currentPageTitle` only shape the prompt, so they do not affect
matching. -/
def decideBestLink (links : List Link) (targetPage : String)
    (currentPageTitle : String) (reasoner : ReasonerOutcome)
    (randomPick : Nat) : Option Link :=
  if links.isEmpty then none
  else
    match reasoner with
    | ReasonerOutcome.error => errorFallback links randomPick
    | ReasonerOutcome.ok content => matchAnswer links (jsTrim (content.getD ""))

/-! ## Race-state reconciler (`src/app/page.tsx`) -/

/-- One entry of `playerPath` / `aiPath` (`PlayerPath` in the source):
`{ url, title, timestamp }`, with the `Date` timestamp as ms since epoch. -/
structure PathStep where
  url : String
  title : String
  timestamp : Int
deriving DecidableEq, Repr

/-- `'player' | 'ai'` from `GameResult.winner`. -/
inductive Winner where
  | player
  | ai
deriving DecidableEq, Repr

/-- `'cooked' | 'cracked' | 'mid'` from `GameResult.rating`. -/
inductive Rating where
  | cooked
  | cracked
  | mid
deriving DecidableEq, Repr

/-- `'not-started' | 'in-progress' | 'completed'` from `GameStateType.status`. -/
inductive Status where
  | notStarted
  | inProgress
  | completed
deriving DecidableEq, Repr

/-- `GameResult` from the source; times are seconds as exact rationals
(the source stores `ms / 1000` floats). -/
structure GameResult where
  winner : Winner
  playerClicks : Nat
  aiClicks : Nat
  playerTime : ℚ
  aiTime : ℚ
  commentary : String
  rating : Rating
deriving DecidableEq, Repr

/-- `GameStateType` from the source. -/
structure GameStateType where
  status : Status
  startPage : String
  targetPage : String
  playerPath : List PathStep
  aiPath : List PathStep
  startTime : Option Int
  endTime : Option Int
  result : Option GameResult
deriving DecidableEq, Repr

/-- The initial `useState` value of the game state. -/
def initGameState : GameStateType :=
  { status := Status.notStarted, startPage := "", targetPage := "",
    playerPath := [], aiPath := [], startTime := none, endTime := none,
    result := none }

/-- The `reason` argument of `endGame`. -/
inductive EndReason where
  | completed
  | aiWon
  | error
deriving DecidableEq, Repr

/-- `endGame` line 108: some AI step's title (spaces → underscores) equals
the target, or its url contains `/wiki/<target>`. -/
def aiReachedTarget (prev : GameStateType) : Bool :=
  prev.aiPath.any (fun step =>
    replaceAllChar step.title ' ' '_' == prev.targetPage ||
    jsIncludes step.url ("/wiki/" ++ prev.targetPage))

/-- `endGame` line 113: some player step's title (spaces → underscores)
equals the target. -/
def playerReachedTarget (prev : GameStateType) : Bool :=
  prev.playerPath.any (fun step => replaceAllChar step.title ' ' '_' == prev.targetPage)

/-- Winner determination in `endGame` (lines 117-129). -/
def endGameWinner (prev : GameStateType) (reason : EndReason) : Winner :=
  if reason == EndReason.aiWon then Winner.ai
  else if aiReachedTarget prev && !playerReachedTarget prev then Winner.ai
  else if playerReachedTarget prev && !aiReachedTarget prev then Winner.player
  else if aiReachedTarget prev && playerReachedTarget prev then
    (if prev.playerPath.length ≤ prev.aiPath.length then Winner.player else Winner.ai)
  else Winner.player

/-- `endGame` line 131: elapsed seconds for the player, `0` when no start
time was recorded. `now` is the `new Date()` taken inside `endGame`. -/
def endGamePlayerTime (prev : GameStateType) (now : Int) : ℚ :=
  match prev.startTime with
  | some t => ((now - t : Int) : ℚ) / 1000
  | none => 0

/-- `endGame` lines 132-134: the AI's elapsed seconds, from the last AI step's
timestamp; defaults to the player's time when the AI path is empty. The
source dereferences `prev.startTime!`; it is modelled with default `0`
(every call site in scope has `startTime` set). -/
def endGameAiTime (prev : GameStateType) (now : Int) : ℚ :=
  match prev.aiPath.getLast? with
  | some last => ((last.timestamp - prev.startTime.getD 0 : Int) : ℚ) / 1000
  | none => endGamePlayerTime prev now

/-- The game-state update performed by `endGame` (lines 99-165): with reason
`error` the updater is never run and the race state is unchanged; otherwise
status becomes `completed` and a provisional result (placeholder commentary,
rating `mid`) is stored. -/
def endGameUpdate (prev : GameStateType) (reason : EndReason) (now : Int) :
    GameStateType :=
  if reason == EndReason.error then prev
  else
    { prev with
      status := Status.completed,
      endTime := some now,
      result := some
        { winner := endGameWinner prev reason,
          playerClicks := prev.playerPath.length,
          aiClicks := prev.aiPath.length,
          playerTime := endGamePlayerTime prev now,
          aiTime := endGameAiTime prev now,
          commentary := "generating commentary...",
          rating := Rating.mid } }

/-- The state update performed when `generateEndGameCommentary`'s fetch
succeeds (lines 206-218): replaces the stored result's commentary and
rating with the response data, leaving every other field alone. -/
def applyCommentaryUpdate (prev : GameStateType) (commentary : String)
    (rating : Rating) : GameStateType :=
  match prev.result with
  | some res =>
    { prev with result := some { res with commentary := commentary, rating := rating } }
  | none => prev

/-- The fallback update in `generateEndGameCommentary`'s catch branch
(lines 223-237): fixed commentary and rating chosen from the captured
`winner` argument. -/
def applyCommentaryFallback (prev : GameStateType) (winner : Winner) :
    GameStateType :=
  match prev.result with
  | some res =>
    { prev with result := some { res with
        commentary :=
          if winner == Winner.player then "you beat the ai! not bad for a human 👏"
          else "better luck next time 😂 ai wins again",
        rating := if winner == Winner.player then Rating.cracked else Rating.cooked } }
  | none => prev

/-- The fresh race state installed by `startGame` (lines 262-271). -/
def startGameUpdate (start target : String) (now : Int) : GameStateType :=
  { status := Status.inProgress, startPage := start, targetPage := target,
    playerPath := [], aiPath := [], startTime := some now, endTime := none,
    result := none }

/-- `handlePlayerNavigation` (lines 315-337): appends the step unless its
url is already anywhere in the player path; the status is not consulted
(it only gates the commentary side effect, which does not touch the race
state). -/
def handlePlayerNavigation (prev : GameStateType) (url title : String)
    (now : Int) : GameStateType :=
  if prev.playerPath.any (fun item => item.url == url) then prev
  else { prev with playerPath := prev.playerPath ++ [⟨url, title, now⟩] }

/-- Hex digit test used by the percent-decoder. -/
def isHexDigitChar (c : Char) : Bool :=
  c.isDigit || decide (97 ≤ c.toNat ∧ c.toNat ≤ 102) ||
    decide (65 ≤ c.toNat ∧ c.toNat ≤ 70)

/-- Numeric value of a hex digit. -/
def hexDigitVal (c : Char) : Nat :=
  if c.isDigit then c.toNat - 48
  else if decide (97 ≤ c.toNat) then c.toNat - 87
  else c.toNat - 55

/-- Single-byte percent-decoding, modelling JS `decodeURIComponent` on the
ASCII range (multi-byte UTF-8 escape sequences are left undecoded; no
claim exercises them). -/
def decodePercent : List Char → List Char
  | '%' :: h1 :: h2 :: rest =>
    if isHexDigitChar h1 && isHexDigitChar h2 &&
        decide (16 * hexDigitVal h1 + hexDigitVal h2 < 128) then
      Char.ofNat (16 * hexDigitVal h1 + hexDigitVal h2) :: decodePercent rest
    else '%' :: decodePercent (h1 :: h2 :: rest)
  | c :: rest => c :: decodePercent rest
  | [] => []

/-- `extractTitleFromUrl` (lines 300-313): capture of
`/\/wiki\/([^#?]*)/`, underscores to spaces, percent-decoded; `'Unknown
Page'` when there is no match or the capture is empty. -/
def extractTitleFromUrl (url : String) : String :=
  match afterFirst url "/wiki/" with
  | none => "Unknown Page"
  | some rest =>
    let captured := String.mk (rest.data.takeWhile (fun c => c ≠ '#' && c ≠ '?'))
    if strIsEmpty captured then "Unknown Page"
    else String.mk (decodePercent ((replaceAllChar captured '_' ' ').data))

/-- `fetchSessionData` lines 423-428: strip the first `' - Wikipedia'`
suffix occurrence from the observed tab title, falling back to the
url-derived title when that leaves the empty string. -/
def observedPageTitle (url title : String) : String :=
  let pageTitle := jsReplaceFirst title " - Wikipedia" ""
  if strIsEmpty pageTitle then extractTitleFromUrl url else pageTitle

/-- `fetchSessionData` lines 449-457 (`isTargetReached`): the wiki path
segment of the url equals the target exactly or case-insensitively, or the
page title with spaces replaced by underscores equals the target. The
truthiness guards on the third disjunct are the nonemptiness tests. -/
def wikiPathSegment (url : String) : Option String :=
  match breakOnFirst "/wiki/".data url.data with
  | none => none
  | some (_, post) =>
    match breakOnFirst "/wiki/".data post with
    | none => some (String.mk post)
    | some (pre2, _) => some (String.mk pre2)

/-- `fetchSessionData` lines 449-457 (`isTargetReached`): the wiki path
segment of the url equals the target exactly or case-insensitively, or the
page title with spaces replaced by underscores equals the target. The
`none` branch models a url without `/wiki/`: in JS both locator disjuncts
are then falsy (`undefined === target` and `undefined && ...`), leaving
only the title disjunct. -/
def observedMatchesTarget (url pageTitle target : String) : Bool :=
  match wikiPathSegment url with
  | none => replaceAllChar pageTitle ' ' '_' == target
  | some p =>
    p == target ||
    replaceAllChar pageTitle ' ' '_' == target ||
    (!(strIsEmpty p) && !(strIsEmpty target) && strToLower p == strToLower target)

/-- The slice of React state that the polling loop reads and writes: the
game state plus the `lastKnownUrl` deduplication cursor. -/
structure PollState where
  game : GameStateType
  lastKnownUrl : Option String
deriving DecidableEq, Repr

/-- One execution of the `fetchSessionData` poll body (lines 412-478) upon
observing current page `(url, title)` at time `now`. Returns the updated
state and whether `endGame('ai-won')` was scheduled (the source defers it
by one second via `setTimeout`). -/
def fetchSessionDataStep (st : PollState) (url title : String) (now : Int) :
    PollState × Bool :=
  if st.lastKnownUrl == some url then (st, false)
  else
    let st1 : PollState := { st with lastKnownUrl := some url }
    if jsIncludes url "wikipedia.org/wiki/" then
      let pageTitle := observedPageTitle url title
      let prev := st1.game
      if prev.aiPath.any (fun item => item.url == url) then (st1, false)
      else
        let newPath := prev.aiPath ++ [⟨url, pageTitle, now⟩]
        let schedule := observedMatchesTarget url pageTitle prev.targetPage &&
          !(prev.playerPath.any
            (fun step => replaceAllChar step.title ' ' '_' == prev.targetPage))
        ({ st1 with game := { prev with aiPath := newPath } }, schedule)
    else (st1, false)

/-- UI-session state for the `startGame` setup flow: the race state, the
`running` flag, the poll cursor, and the log of messages surfaced through
`setError`. -/
structure UIState where
  game : GameStateType
  running : Bool
  lastKnownUrl : Option String
  errors : List String
deriving DecidableEq, Repr

/-- The initial UI-session state. -/
def uiInit : UIState :=
  { game := initGameState, running := false, lastKnownUrl := none, errors := [] }

/-- The synchronous head of `startGame` (lines 262-273): install a fresh
in-progress race state and set `running` — this happens before the
automation session is ever attempted. -/
def startGameBegin (st : UIState) (start target : String) (now : Int) : UIState :=
  { st with game := startGameUpdate start target now, running := true }

/-- `endGame('error')` (lines 99-103): clear `running` and the poll cursor,
then return before touching the race state. -/
def endGameErrorStep (st : UIState) : UIState :=
  { st with running := false, lastKnownUrl := none }

/-- The complete failed-setup flow (lines 262-296): the synchronous state
install, then the catch branch — `setError(msg)` followed by
`endGame('error')`. -/
def startGameFailed (st : UIState) (start target : String) (now : Int)
    (msg : String) : UIState :=
  let st1 := startGameBegin st start target now
  let st2 : UIState := { st1 with errors := st1.errors ++ [msg] }
  endGameErrorStep st2

/-! ## Event system: every operation that can touch the race state -/

/-- The discrete external events that mutate the race state, serialized on
the UI event loop. -/
inductive Event where
  | startRace (start target : String) (now : Int)
  | humanNav (url title : String) (now : Int)
  | agentPoll (url title : String) (now : Int)
  | endRace (reason : EndReason) (now : Int)
  | commentaryOk (c : String) (r : Rating)
  | commentaryFail (w : Winner)
deriving DecidableEq, Repr

/-- Effect of one event on the poll-visible state. `endRace` clears the
poll cursor unconditionally (`setLastKnownUrl(null)` runs before the
`error` early return). -/
def stepEvent (st : PollState) : Event → PollState
  | Event.startRace s t now => { st with game := startGameUpdate s t now }
  | Event.humanNav u ti now => { st with game := handlePlayerNavigation st.game u ti now }
  | Event.agentPoll u ti now => (fetchSessionDataStep st u ti now).1
  | Event.endRace r now =>
    { game := endGameUpdate st.game r now, lastKnownUrl := none }
  | Event.commentaryOk c r => { st with game := applyCommentaryUpdate st.game c r }
  | Event.commentaryFail w => { st with game := applyCommentaryFallback st.game w }

/-- The initial poll-visible state. -/
def initPollState : PollState :=
  { game := initGameState, lastKnownUrl := none }

/-- A state is reachable when some event trace produces it from the
initial state. -/
def Reachable (st : PollState) : Prop :=
  ∃ evs : List Event, st = evs.foldl stepEvent initPollState

/-! ## Helper lemmas about the link-selection engine -/

/-- The fold underlying `argmaxFirst` returns one of its inputs. -/
theorem foldl_pick_mem (key : Link → Nat) :
    ∀ (ls : List Link) (a : Link),
      ls.foldl (fun best x => if key x > key best then x else best) a ∈ a :: ls := by
  intro ls
  induction ls with
  | nil => intro a; simp
  | cons x xs ih =>
    intro a
    simp only [List.foldl_cons]
    have h := ih (if key x > key a then x else a)
    have hsub : (if key x > key a then x else a) :: xs ⊆ a :: x :: xs := by
      intro y hy
      rcases List.mem_cons.mp hy with hy | hy
      · subst hy
        by_cases hk : key x > key a
        · simp [hk]
        · simp [hk]
      · simp [hy]
    exact hsub h

/-- `argmaxFirst` returns an element of its input list. -/
theorem argmaxFirst_mem {key : Link → Nat} {links : List Link} {l : Link}
    (h : argmaxFirst key links = some l) : l ∈ links := by
  cases links with
  | nil => simp [argmaxFirst] at h
  | cons a as =>
    simp only [argmaxFirst, Option.some.injEq] at h
    subst h
    exact foldl_pick_mem key as a

/-- Indexing a nonempty list modulo its length succeeds with a member. -/
theorem getElem_mod_mem {L : List Link} (h : L ≠ []) (n : Nat) :
    ∃ l, L[n % L.length]? = some l ∧ l ∈ L := by
  have hlen : 0 < L.length := List.length_pos.mpr h
  have hlt : n % L.length < L.length := Nat.mod_lt _ hlen
  exact ⟨L[n % L.length], by simp [List.getElem?_eq_getElem hlt],
    List.getElem_mem hlt⟩

/-- The error fallback of `decideBestLink` always yields a member of a
nonempty candidate list. -/
theorem errorFallback_spec (a : Link) (as : List Link) (n : Nat) :
    ∃ l, errorFallback (a :: as) n = some l ∧ l ∈ a :: as := by
  unfold errorFallback
  by_cases hpot : ((a :: as).filter (fun l =>
      decide (l.text.length > 10) || capitalizedInitial l.text)).isEmpty = true
  · simp only [hpot, if_pos]
    exact getElem_mod_mem (by simp) n
  · simp only [hpot, if_neg, Bool.false_eq_true, not_false_eq_true, ite_false]
    have hne : (a :: as).filter (fun l =>
        decide (l.text.length > 10) || capitalizedInitial l.text) ≠ [] := by
      intro hnil
      rw [hnil] at hpot
      simp at hpot
    obtain ⟨l, hl, hmem⟩ := getElem_mod_mem hne n
    exact ⟨l, hl, List.mem_of_mem_filter hmem⟩

/-- The answer-matching cascade always yields a member of a nonempty
candidate list. -/
theorem matchAnswer_spec (a : Link) (as : List Link) (t : String) :
    ∃ l, matchAnswer (a :: as) t = some l ∧ l ∈ a :: as := by
  unfold matchAnswer
  by_cases hemp : strIsEmpty t = true
  · exact ⟨a, by simp [hemp], by simp⟩
  · simp only [hemp, Bool.false_eq_true, if_false]
    cases h1 : (a :: as).find? (fun l => l.text == t) with
    | some l => exact ⟨l, by simp [h1], List.mem_of_find?_eq_some h1⟩
    | none =>
      cases h2 : (a :: as).find? (fun l => tier2Match l t) with
      | some l => exact ⟨l, by simp [h1, h2], List.mem_of_find?_eq_some h2⟩
      | none =>
        cases h3 : argmaxFirst (matchCount (splitWs (strToLower t))) (a :: as) with
        | some l =>
          by_cases hsc :
              2 * matchCount (splitWs (strToLower t)) l > (splitWs (strToLower t)).length
          · exact ⟨l, by simp [h1, h2, h3, hsc], argmaxFirst_mem h3⟩
          · exact ⟨a, by simp [h1, h2, h3, hsc], by simp⟩
        | none => simp [argmaxFirst] at h3

/-- `decideBestLink` on a nonempty candidate list always returns some
member of that list. -/
theorem decideBestLink_cons_spec (a : Link) (as : List Link)
    (targetPage currentPageTitle : String) (reasoner : ReasonerOutcome)
    (randomPick : Nat) :
    ∃ l, decideBestLink (a :: as) targetPage currentPageTitle reasoner randomPick
        = some l ∧ l ∈ a :: as := by
  cases reasoner with
  | error =>
    obtain ⟨l, hl, hmem⟩ := errorFallback_spec a as randomPick
    exact ⟨l, by simpa [decideBestLink] using hl, hmem⟩
  | ok content =>
    obtain ⟨l, hl, hmem⟩ := matchAnswer_spec a as (jsTrim (content.getD ""))
    exact ⟨l, by simpa [decideBestLink] using hl, hmem⟩

/-! ## Claim theorems for the link-selection engine -/

/-- C6 — Link-selection totality: `decideBestLink` returns `null` exactly
when the candidate list is empty, and on a non-empty candidate list it
returns an element of the input list, for every reasoner outcome
(including an error or an unmatched answer) and every random seed. -/
theorem C6_link_selection_totality (links : List Link)
    (targetPage currentPageTitle : String) (reasoner : ReasonerOutcome)
    (randomPick : Nat) :
    (decideBestLink links targetPage currentPageTitle reasoner randomPick = none
      ↔ links = []) ∧
    (∀ l : Link,
      decideBestLink links targetPage currentPageTitle reasoner randomPick = some l →
      l ∈ links) := by
  cases links with
  | nil =>
    constructor
    · simp [decideBestLink]
    · intro l h
      simp [decideBestLink] at h
  | cons a as =>
    obtain ⟨l₀, hl₀, hmem⟩ :=
      decideBestLink_cons_spec a as targetPage currentPageTitle reasoner randomPick
    constructor
    · constructor
      · intro h
        rw [h] at hl₀
        cases hl₀
      · intro h
        cases h
    · intro l h
      rw [hl₀] at h
      cases h
      exact hmem

/-- Concrete evaluation of C6: the empty list yields `none`, and a
two-candidate list yields a member. -/
theorem C6_link_selection_totality_witness :
    decideBestLink [] "Albert Einstein" "Pizza" ReasonerOutcome.error 3 = none ∧
    Link.mk "Beta" "/wiki/Beta" ∈ [Link.mk "Alpha" "/wiki/Alpha", Link.mk "Beta" "/wiki/Beta"] := by
  constructor
  · exact (C6_link_selection_totality [] "Albert Einstein" "Pizza"
      ReasonerOutcome.error 3).1.mpr rfl
  · exact (C6_link_selection_totality
      [Link.mk "Alpha" "/wiki/Alpha", Link.mk "Beta" "/wiki/Beta"]
      "Albert Einstein" "Pizza" (ReasonerOutcome.ok (some "Beta")) 0).2
      (Link.mk "Beta" "/wiki/Beta") (by decide)

/-- C7 — Matching precedence: when the reasoner's (trimmed, nonempty)
answer equals some candidate's display text exactly, `decideBestLink`
returns a candidate with exactly that text, regardless of what fuzzy tiers
would have matched. -/
theorem C7_exact_match_precedence (links : List Link)
    (targetPage currentPageTitle content : String) (randomPick : Nat)
    (l : Link) (hmem : l ∈ links) (hex : l.text = jsTrim content)
    (hne : jsTrim content ≠ "") :
    ∃ l', decideBestLink links targetPage currentPageTitle
        (ReasonerOutcome.ok (some content)) randomPick = some l' ∧
      l'.text = jsTrim content := by
  cases links with
  | nil => cases hmem
  | cons a as =>
    have hsome : ((a :: as).find? (fun y => y.text == jsTrim content)).isSome := by
      refine List.find?_isSome.mpr ⟨l, hmem, ?_⟩
      simp [hex]
    obtain ⟨l', hl'⟩ := Option.isSome_iff_exists.mp hsome
    have htext : l'.text = jsTrim content := by
      have := List.find?_some hl'
      simpa using this
    refine ⟨l', ?_, htext⟩
    have hempty : strIsEmpty (jsTrim content) = false := by
      simp only [strIsEmpty, beq_eq_false_iff_ne, ne_eq]
      exact hne
    simp [decideBestLink, matchAnswer, hempty, hl']

/-- Concrete evaluation of C7: answer "Beta" picks the exact candidate
"Beta" even though "Beta test" would also satisfy the containment tier. -/
theorem C7_exact_match_precedence_witness :
    ∃ l', decideBestLink
        [Link.mk "Beta test" "/wiki/Beta_test", Link.mk "Beta" "/wiki/Beta"]
        "Albert Einstein" "Pizza" (ReasonerOutcome.ok (some "Beta")) 0 = some l' ∧
      l'.text = jsTrim "Beta" :=
  C7_exact_match_precedence
    [Link.mk "Beta test" "/wiki/Beta_test", Link.mk "Beta" "/wiki/Beta"]
    "Albert Einstein" "Pizza" "Beta" 0 (Link.mk "Beta" "/wiki/Beta")
    (by decide) (by decide) (by decide)

/-- C8 — Token-overlap threshold: when the trimmed answer is nonempty, no
candidate matches tier 1 or tier 2, and every candidate's token-overlap
score is at most one half (`2 * matched ≤ total`), tier 3 selects nothing
and `decideBestLink` falls through to the first candidate. -/
theorem C8_token_overlap_threshold (links : List Link)
    (targetPage currentPageTitle content : String) (randomPick : Nat)
    (hne : links ≠ [])
    (ht : jsTrim content ≠ "")
    (h1 : links.find? (fun l => l.text == jsTrim content) = none)
    (h2 : links.find? (fun l => tier2Match l (jsTrim content)) = none)
    (h3 : ∀ l ∈ links, 2 * matchCount (splitWs (strToLower (jsTrim content))) l
            ≤ (splitWs (strToLower (jsTrim content))).length) :
    decideBestLink links targetPage currentPageTitle
      (ReasonerOutcome.ok (some content)) randomPick = links.head? := by
  cases links with
  | nil => cases hne rfl
  | cons a as =>
    have hempty : strIsEmpty (jsTrim content) = false := by
      simp only [strIsEmpty, beq_eq_false_iff_ne, ne_eq]
      exact ht
    have hargmax : argmaxFirst (matchCount (splitWs (strToLower (jsTrim content)))) (a :: as)
        = some (as.foldl (fun best x =>
            if matchCount (splitWs (strToLower (jsTrim content))) x >
               matchCount (splitWs (strToLower (jsTrim content))) best then x else best) a) :=
      rfl
    have hmem := argmaxFirst_mem hargmax
    have hle := h3 _ hmem
    have hnot : ¬ (2 * matchCount (splitWs (strToLower (jsTrim content)))
        (as.foldl (fun best x =>
          if matchCount (splitWs (strToLower (jsTrim content))) x >
             matchCount (splitWs (strToLower (jsTrim content))) best then x else best) a)
        > (splitWs (strToLower (jsTrim content))).length) := Nat.not_lt.mpr hle
    simp [decideBestLink, matchAnswer, hempty, h1, h2, hargmax, hnot]

/-- Concrete evaluation of C8: the answer "Gamma Delta" scores 0 against
both candidates, so selection falls back to the first candidate. -/
theorem C8_token_overlap_threshold_witness :
    decideBestLink [Link.mk "Alpha" "/wiki/Alpha", Link.mk "Beta" "/wiki/Beta"]
      "Albert Einstein" "Pizza" (ReasonerOutcome.ok (some "Gamma Delta")) 0 =
      [Link.mk "Alpha" "/wiki/Alpha", Link.mk "Beta" "/wiki/Beta"].head? :=
  C8_token_overlap_threshold
    [Link.mk "Alpha" "/wiki/Alpha", Link.mk "Beta" "/wiki/Beta"]
    "Albert Einstein" "Pizza" "Gamma Delta" 0 (by decide) (by decide)
    (by decide) (by decide) (by decide)

/-! ## Claim theorems for the race-state reconciler -/

/-- A race state in which both sides have reached the target with equal
step counts and the agent finished earlier (agent hit the target at 10 s,
the human at 10.5 s — inside the one-second window before the scheduled
`endGame('ai-won')` fires, so the human's own completion signal runs
first with both paths containing the target). -/
def c1State : GameStateType :=
  { status := Status.inProgress, startPage := "Pizza",
    targetPage := "Albert_Einstein",
    playerPath := [⟨"https://en.wikipedia.org/wiki/Italy", "Italy", 3000⟩,
      ⟨"https://en.wikipedia.org/wiki/Albert_Einstein", "Albert Einstein", 10500⟩],
    aiPath := [⟨"https://en.wikipedia.org/wiki/Physics", "Physics", 2000⟩,
      ⟨"https://en.wikipedia.org/wiki/Albert_Einstein", "Albert Einstein", 10000⟩],
    startTime := some 0, endTime := none, result := none }

/-- C1 — counterexample: both sides reached the target with equal step
counts and the agent's elapsed time (10 s) is below the player's (10.5 s),
yet `endGame` (human-declared completion) declares the player the winner —
elapsed time and completion order are never consulted in the tie-break. -/
theorem C1_tie_break_counterexample :
    playerReachedTarget c1State = true ∧
    aiReachedTarget c1State = true ∧
    c1State.playerPath.length = c1State.aiPath.length ∧
    (endGameUpdate c1State EndReason.completed 10500).result.map GameResult.aiTime
      = some 10 ∧
    (endGameUpdate c1State EndReason.completed 10500).result.map GameResult.playerTime
      = some (21 / 2) ∧
    (endGameUpdate c1State EndReason.completed 10500).result.map GameResult.winner
      = some Winner.player := by
  refine ⟨by decide, by decide, by decide, ?_, ?_, by decide⟩
  · show some (endGameAiTime c1State 10500) = some ((10 : ℚ))
    norm_num [endGameAiTime, endGamePlayerTime, c1State]
  · show some (endGamePlayerTime c1State 10500) = some ((21 / 2 : ℚ))
    norm_num [endGamePlayerTime, c1State]

/-- C1 — amended: when both paths have reached the target, `endGame` with
the human-declared reason resolves the winner solely by step counts, with
equal counts awarded to the player; elapsed times and completion order
play no role. -/
theorem C1_tie_break_amended (s : GameStateType) (now : Int)
    (hai : aiReachedTarget s = true) (hp : playerReachedTarget s = true) :
    (endGameUpdate s EndReason.completed now).result.map GameResult.winner =
      some (if s.playerPath.length ≤ s.aiPath.length then Winner.player
        else Winner.ai) := by
  have hb : (EndReason.completed == EndReason.error) = false := rfl
  have hb2 : (EndReason.completed == EndReason.aiWon) = false := rfl
  simp [endGameUpdate, endGameWinner, hai, hp, hb, hb2]

/-- Concrete evaluation of the amended C1 at the tied race. -/
theorem C1_tie_break_amended_witness :
    (endGameUpdate c1State EndReason.completed 10500).result.map GameResult.winner =
      some (if c1State.playerPath.length ≤ c1State.aiPath.length then Winner.player
        else Winner.ai) :=
  C1_tie_break_amended c1State 10500 (by decide) (by decide)

/-- C2 — Agent auto-completion: during an in-progress race, a freshly
observed agent page (new url, on the wiki site, not yet in the agent path)
whose normalized label or locator matches the target, while no human step
matches the target, makes the poll body schedule `endGame('ai-won')`, and
that completion ends the race with the agent as winner. -/
theorem C2_agent_auto_completion (st : PollState) (url title : String)
    (now now2 : Int)
    (hstatus : st.game.status = Status.inProgress)
    (hnew : (st.lastKnownUrl == some url) = false)
    (hwiki : jsIncludes url "wikipedia.org/wiki/" = true)
    (hfresh : st.game.aiPath.any (fun item => item.url == url) = false)
    (hmatch : observedMatchesTarget url (observedPageTitle url title)
        st.game.targetPage = true)
    (hhuman : st.game.playerPath.any
        (fun step => replaceAllChar step.title ' ' '_' == st.game.targetPage)
        = false) :
    (fetchSessionDataStep st url title now).2 = true ∧
    (endGameUpdate (fetchSessionDataStep st url title now).1.game
        EndReason.aiWon now2).status = Status.completed ∧
    (endGameUpdate (fetchSessionDataStep st url title now).1.game
        EndReason.aiWon now2).result.map GameResult.winner = some Winner.ai := by
  have hb : (EndReason.aiWon == EndReason.error) = false := rfl
  have hb2 : (EndReason.aiWon == EndReason.aiWon) = true := rfl
  refine ⟨?_, ?_, ?_⟩ <;>
    simp [fetchSessionDataStep, hnew, hwiki, hfresh, hmatch, hhuman,
      endGameUpdate, endGameWinner, hb, hb2]

/-- The race state of scenario A right after
`startRace("Pizza","Albert_Einstein")`. -/
def scenarioAStart : PollState :=
  { game := startGameUpdate "Pizza" "Albert_Einstein" 0, lastKnownUrl := none }

/-- Concrete evaluation of C2 — scenario A: the first observed agent page
is the target and the race completes with the agent as winner before any
human step. -/
theorem C2_agent_auto_completion_witness :
    (fetchSessionDataStep scenarioAStart
        "https://en.wikipedia.org/wiki/Albert_Einstein"
        "Albert Einstein - Wikipedia" 4000).2 = true ∧
    (endGameUpdate (fetchSessionDataStep scenarioAStart
          "https://en.wikipedia.org/wiki/Albert_Einstein"
          "Albert Einstein - Wikipedia" 4000).1.game
        EndReason.aiWon 5000).status = Status.completed ∧
    (endGameUpdate (fetchSessionDataStep scenarioAStart
          "https://en.wikipedia.org/wiki/Albert_Einstein"
          "Albert Einstein - Wikipedia" 4000).1.game
        EndReason.aiWon 5000).result.map GameResult.winner = some Winner.ai :=
  C2_agent_auto_completion scenarioAStart
    "https://en.wikipedia.org/wiki/Albert_Einstein"
    "Albert Einstein - Wikipedia" 4000 5000 rfl (by decide) (by decide)
    (by decide) (by decide) (by decide)

/-- C3 — counterexample: a human-step notification delivered in the
`not-started` initial state is not rejected — it mutates the state by
appending to the player path (the status is never consulted). -/
theorem C3_guard_counterexample :
    initGameState.status = Status.notStarted ∧
    handlePlayerNavigation initGameState
      "https://en.wikipedia.org/wiki/Pizza" "Pizza" 0 ≠ initGameState ∧
    (handlePlayerNavigation initGameState
      "https://en.wikipedia.org/wiki/Pizza" "Pizza" 0).playerPath.length = 1 := by
  refine ⟨rfl, ?_, rfl⟩
  decide

/-- C3 — amended: `handlePlayerNavigation` ignores the race status
entirely: in every state it appends the step exactly when the locator is
not already somewhere in the human path, and leaves the state untouched on
a duplicate locator. -/
theorem C3_guard_amended (s : GameStateType) (url title : String) (now : Int) :
    (s.playerPath.any (fun item => item.url == url) = true →
      handlePlayerNavigation s url title now = s) ∧
    (s.playerPath.any (fun item => item.url == url) = false →
      handlePlayerNavigation s url title now =
        { s with playerPath := s.playerPath ++ [⟨url, title, now⟩] }) := by
  constructor
  · intro h
    simp [handlePlayerNavigation, h]
  · intro h
    simp [handlePlayerNavigation, h]

/-- Concrete evaluation of the amended C3: a fresh locator is appended even
in the `not-started` state. -/
theorem C3_guard_amended_witness :
    handlePlayerNavigation initGameState
        "https://en.wikipedia.org/wiki/Italy" "Italy" 7 =
      { initGameState with
        playerPath := [⟨"https://en.wikipedia.org/wiki/Italy", "Italy", 7⟩] } :=
  (C3_guard_amended initGameState
    "https://en.wikipedia.org/wiki/Italy" "Italy" 7).2 rfl

/-- A freshly completed race (player declared completion immediately,
both paths empty), whose provisional result has rating `mid`. -/
def c4Completed : GameStateType :=
  endGameUpdate (startGameUpdate "Pizza" "Albert_Einstein" 0)
    EndReason.completed 5000

/-- C4 — counterexample: the asynchronous commentary resolution changes the
stored rating (from the provisional `mid` to the response's rating), so the
performance tier is not immutable after completion. -/
theorem C4_outcome_counterexample :
    c4Completed.result.map GameResult.rating = some Rating.mid ∧
    (applyCommentaryUpdate c4Completed "better luck next time"
        Rating.cooked).result.map GameResult.rating = some Rating.cooked := by
  constructor <;> rfl

/-- C4 — amended: the asynchronous commentary resolution replaces exactly
the commentary and the rating of the stored outcome, preserving winner,
step counts and elapsed times; the error-fallback resolution is an
instance of the same replacement. -/
theorem C4_outcome_amended (s : GameStateType) (res : GameResult) (c : String)
    (r : Rating) (h : s.result = some res) :
    (applyCommentaryUpdate s c r).result =
      some { res with commentary := c, rating := r } ∧
    ∀ w : Winner, ∃ c' r',
      applyCommentaryFallback s w = applyCommentaryUpdate s c' r' := by
  constructor
  · simp [applyCommentaryUpdate, h]
  · intro w
    refine ⟨(if w == Winner.player then "you beat the ai! not bad for a human 👏"
        else "better luck next time 😂 ai wins again"),
      (if w == Winner.player then Rating.cracked else Rating.cooked), ?_⟩
    simp [applyCommentaryFallback, applyCommentaryUpdate, h]

/-- Concrete evaluation of the amended C4 on the freshly completed race. -/
theorem C4_outcome_amended_witness :
    (applyCommentaryUpdate c4Completed "mid performance" Rating.mid).result =
      some { winner := Winner.player, playerClicks := 0, aiClicks := 0,
             playerTime := 5, aiTime := 5,
             commentary := "mid performance", rating := Rating.mid } :=
  (C4_outcome_amended c4Completed
    { winner := Winner.player, playerClicks := 0, aiClicks := 0,
      playerTime := 5, aiTime := 5,
      commentary := "generating commentary...", rating := Rating.mid }
    "mid performance" Rating.mid
    (by
      show some _ = some _
      norm_num [c4Completed, endGameUpdate, startGameUpdate, endGameWinner,
        endGamePlayerTime, endGameAiTime, aiReachedTarget,
        playerReachedTarget]
      intro h
      exact EndReason.noConfusion h)).1

/-- C5 — counterexample: when the automation session fails to start, the
race state has already entered `in-progress` (the status is installed
synchronously before the session attempt), contradicting "aborts before
`in-progress` is ever entered". -/
theorem C5_setup_counterexample :
    (startGameFailed uiInit "Pizza" "Albert_Einstein" 0
      "Failed to start session").game.status = Status.inProgress := rfl

/-- C5 — amended: a failed setup surfaces exactly one error message, stops
the agent-running flag, and never reaches `completed` through the error
path — but the race state has already entered (and stays in)
`in-progress` with no outcome recorded. -/
theorem C5_setup_amended (st : UIState) (start target msg : String) (now : Int)
    (h : st.errors = []) :
    (startGameFailed st start target now msg).errors = [msg] ∧
    (startGameFailed st start target now msg).game.status = Status.inProgress ∧
    (startGameFailed st start target now msg).game.status ≠ Status.completed ∧
    (startGameFailed st start target now msg).game.result = none ∧
    (startGameFailed st start target now msg).running = false := by
  simp [startGameFailed, startGameBegin, endGameErrorStep, startGameUpdate, h]

/-- Concrete evaluation of the amended C5 from the initial UI state. -/
theorem C5_setup_amended_witness :
    (startGameFailed uiInit "Pizza" "Albert_Einstein" 0 "boom").errors = ["boom"] ∧
    (startGameFailed uiInit "Pizza" "Albert_Einstein" 0 "boom").game.status
      = Status.inProgress ∧
    (startGameFailed uiInit "Pizza" "Albert_Einstein" 0 "boom").game.status
      ≠ Status.completed ∧
    (startGameFailed uiInit "Pizza" "Albert_Einstein" 0 "boom").game.result = none ∧
    (startGameFailed uiInit "Pizza" "Albert_Einstein" 0 "boom").running = false :=
  C5_setup_amended uiInit "Pizza" "Albert_Einstein" "boom" 0 rfl

/-- C9 — Idempotence of human-step recording: a second notification with
the same locator never grows the player path, whatever the state, titles
and timestamps. -/
theorem C9_human_step_idempotent (s : GameStateType) (url title1 title2 : String)
    (n1 n2 : Int) :
    (handlePlayerNavigation (handlePlayerNavigation s url title1 n1)
        url title2 n2).playerPath.length
      = (handlePlayerNavigation s url title1 n1).playerPath.length := by
  by_cases h : s.playerPath.any (fun item => item.url == url) = true
  · simp [handlePlayerNavigation, h]
  · simp only [Bool.not_eq_true] at h
    simp [handlePlayerNavigation, h, List.any_append]

/-! ## The global de-duplication invariant -/

/-- Both path locator lists are duplicate-free. -/
def PathsNodup (g : GameStateType) : Prop :=
  (g.playerPath.map PathStep.url).Nodup ∧ (g.aiPath.map PathStep.url).Nodup

/-- A failed `any`-scan for a url means the url is not among the mapped
locators. -/
theorem any_url_false_not_mem {path : List PathStep} {url : String}
    (h : path.any (fun item => item.url == url) = false) :
    url ∉ path.map PathStep.url := by
  intro hmem
  obtain ⟨st, hst, hurl⟩ := List.mem_map.mp hmem
  have htrue : path.any (fun item => item.url == url) = true :=
    List.any_eq_true.mpr ⟨st, hst, by simp [hurl]⟩
  rw [h] at htrue
  cases htrue

/-- Appending a step with a fresh locator preserves locator dedup. -/
theorem nodup_append_step {path : List PathStep} {s : PathStep}
    (hn : (path.map PathStep.url).Nodup)
    (h : s.url ∉ path.map PathStep.url) :
    ((path ++ [s]).map PathStep.url).Nodup := by
  rw [List.map_append]
  rw [List.nodup_append]
  refine ⟨hn, List.nodup_singleton _, ?_⟩
  intro x hx hx2
  simp only [List.map_cons, List.map_nil, List.mem_singleton] at hx2
  subst hx2
  exact h hx

/-- The poll body either leaves the race state unchanged or appends one
fresh agent step. -/
theorem fetchSessionDataStep_game_cases (st : PollState) (url title : String)
    (now : Int) :
    (fetchSessionDataStep st url title now).1.game = st.game ∨
    (st.game.aiPath.any (fun item => item.url == url) = false ∧
      (fetchSessionDataStep st url title now).1.game =
        { st.game with aiPath :=
            st.game.aiPath ++ [⟨url, observedPageTitle url title, now⟩] }) := by
  unfold fetchSessionDataStep
  by_cases h1 : (st.lastKnownUrl == some url) = true
  · left
    simp [h1]
  · simp only [Bool.not_eq_true] at h1
    by_cases h2 : jsIncludes url "wikipedia.org/wiki/" = true
    · by_cases h3 : st.game.aiPath.any (fun item => item.url == url) = true
      · left
        simp [h1, h2, h3]
      · right
        simp only [Bool.not_eq_true] at h3
        exact ⟨h3, by simp [h1, h2, h3]⟩
    · simp only [Bool.not_eq_true] at h2
      left
      simp [h1, h2]

/-- Every single event preserves the locator-dedup invariant. -/
theorem pathsNodup_stepEvent (st : PollState) (e : Event)
    (h : PathsNodup st.game) : PathsNodup (stepEvent st e).game := by
  obtain ⟨hp, ha⟩ := h
  cases e with
  | startRace s t now =>
    exact ⟨by simp [stepEvent, startGameUpdate], by simp [stepEvent, startGameUpdate]⟩
  | humanNav u ti now =>
    show PathsNodup (handlePlayerNavigation st.game u ti now)
    unfold handlePlayerNavigation
    by_cases hc : st.game.playerPath.any (fun item => item.url == u) = true
    · simp only [hc, if_true]
      exact ⟨hp, ha⟩
    · simp only [Bool.not_eq_true] at hc
      simp only [hc, Bool.false_eq_true, if_false]
      exact ⟨nodup_append_step hp (any_url_false_not_mem hc), ha⟩
  | agentPoll u ti now =>
    show PathsNodup (fetchSessionDataStep st u ti now).1.game
    rcases fetchSessionDataStep_game_cases st u ti now with hcase | ⟨hfresh, hcase⟩
    · rw [hcase]
      exact ⟨hp, ha⟩
    · rw [hcase]
      exact ⟨hp, nodup_append_step ha (any_url_false_not_mem hfresh)⟩
  | endRace r now =>
    show PathsNodup (endGameUpdate st.game r now)
    unfold endGameUpdate
    by_cases hr : (r == EndReason.error) = true
    · simp only [hr, if_true]
      exact ⟨hp, ha⟩
    · simp only [Bool.not_eq_true] at hr
      simp only [hr, Bool.false_eq_true, if_false]
      exact ⟨hp, ha⟩
  | commentaryOk c r =>
    show PathsNodup (applyCommentaryUpdate st.game c r)
    unfold applyCommentaryUpdate
    cases hres : st.game.result with
    | none => exact ⟨hp, ha⟩
    | some res => exact ⟨hp, ha⟩
  | commentaryFail w =>
    show PathsNodup (applyCommentaryFallback st.game w)
    unfold applyCommentaryFallback
    cases hres : st.game.result with
    | none => exact ⟨hp, ha⟩
    | some res => exact ⟨hp, ha⟩

/-- C10 — Global path de-duplication invariant: in every reachable state
the locators of the human path are pairwise distinct and so are the
locators of the agent path — each append checks the whole existing path,
so an earlier-visited locator is never re-appended. -/
theorem C10_path_dedup_invariant (st : PollState) (h : Reachable st) :
    (st.game.playerPath.map PathStep.url).Nodup ∧
    (st.game.aiPath.map PathStep.url).Nodup := by
  obtain ⟨evs, rfl⟩ := h
  have H : ∀ (l : List Event) (s0 : PollState), PathsNodup s0.game →
      PathsNodup ((l.foldl stepEvent s0).game) := by
    intro l
    induction l with
    | nil =>
      intro s0 h0
      exact h0
    | cons e rest ih =>
      intro s0 h0
      exact ih _ (pathsNodup_stepEvent s0 e h0)
  exact H evs initPollState ⟨by simp [initPollState, initGameState],
    by simp [initPollState, initGameState]⟩

/-- Concrete evaluation of C10 along an event trace that attempts a
duplicate locator on each side (a repeated human page and a revisited
agent page after an intervening different page). -/
theorem C10_path_dedup_invariant_witness :
    ((([Event.startRace "Pizza" "Albert_Einstein" 0,
        Event.humanNav "https://en.wikipedia.org/wiki/Italy" "Italy" 1000,
        Event.humanNav "https://en.wikipedia.org/wiki/Italy" "Italy" 2000,
        Event.agentPoll "https://en.wikipedia.org/wiki/Physics"
          "Physics - Wikipedia" 1500,
        Event.agentPoll "https://en.wikipedia.org/wiki/Rome"
          "Rome - Wikipedia" 2500,
        Event.agentPoll "https://en.wikipedia.org/wiki/Physics"
          "Physics - Wikipedia" 3500]).foldl stepEvent
        initPollState).game.playerPath.map PathStep.url).Nodup ∧
    ((([Event.startRace "Pizza" "Albert_Einstein" 0,
        Event.humanNav "https://en.wikipedia.org/wiki/Italy" "Italy" 1000,
        Event.humanNav "https://en.wikipedia.org/wiki/Italy" "Italy" 2000,
        Event.agentPoll "https://en.wikipedia.org/wiki/Physics"
          "Physics - Wikipedia" 1500,
        Event.agentPoll "https://en.wikipedia.org/wiki/Rome"
          "Rome - Wikipedia" 2500,
        Event.agentPoll "https://en.wikipedia.org/wiki/Physics"
          "Physics - Wikipedia" 3500]).foldl stepEvent
        initPollState).game.aiPath.map PathStep.url).Nodup :=
  C10_path_dedup_invariant _ ⟨_, rfl⟩

end WikiRace
